import Mathlib

/-!
Shallow embedding of the `victorlane/rate` heart-rate analysis scripts
(`src/apple/main.py` and `src/fitbit/main.py`).

Timestamps are modelled as epoch seconds (`Int`); heart rates and minute
totals as rationals (`ℚ`), standing in for Python floats; the per-day
dict is an insertion-ordered association list, matching Python dict
semantics (an existing key keeps its position, a new key is appended).
-/

namespace Rate

/-- One normalized heart-rate sample, the common record shape both
adapters produce (`timestamp`, `heart_rate`).  The Python dicts also
carry a precomputed `date_key` (and, for Fitbit, a `confidence`), but
the attribution engine recomputes the date key from the timestamp and
never reads the other fields, so they are not part of the record here. -/
structure Sample where
  timestamp : Int
  heart_rate : ℚ
deriving DecidableEq

/-- Embeds `get_date_key` (identical in both scripts): the calendar day
a timestamp falls on, as days since the epoch (floor division), standing
in for the `YYYY-MM-DD` string of `dt.strftime("%Y-%m-%d")`. -/
def get_date_key (t : Int) : Int := t.fdiv 86400

/-- The qualification test `heart_rate >= min_bpm` (apple/main.py:144,
fitbit/main.py:129). -/
def qualifies (min_bpm : Int) (s : Sample) : Bool :=
  decide ((min_bpm : ℚ) ≤ s.heart_rate)

/-- The seconds attributed to one qualifying reading, parameterised by
the adapter policy: when a next reading exists the gap to it is used,
capped at `cap` if the policy has one (apple/main.py:148-158 caps at 10,
fitbit/main.py:133-136 uses the raw gap); for the last reading the
fixed fallback is used (apple/main.py:171-173 uses 5,
fitbit/main.py:139-141 uses 3). -/
def durationSeconds (capOpt : Option ℚ) (fallback : ℚ)
    (s : Sample) (nextOpt : Option Sample) : ℚ :=
  match nextOpt with
  | some nxt =>
      let gap : ℚ := ((nxt.timestamp - s.timestamp : Int) : ℚ)
      match capOpt with
      | some c => if gap ≤ c then gap else c
      | none => gap
  | none => fallback

/-- Python-dict style upsert into an insertion-ordered association
list: `daily_minutes[date_key] += v` on a `defaultdict(float)`. -/
def upsert (k : Int) (v : ℚ) : List (Int × ℚ) → List (Int × ℚ)
  | [] => [(k, v)]
  | (k', v') :: rest =>
      if k' = k then (k', v' + v) :: rest else (k', v') :: upsert k v rest

/-- The state accumulated by the loop of `calculate_all_high_bpm_time`:
the per-day minutes dict, `total_high_seconds`, and `high_bpm_count`
(the latter two are surfaced for diagnostics per the spec). -/
structure AttrResult where
  daily : List (Int × ℚ)
  total_high_seconds : ℚ
  high_bpm_count : Nat
deriving DecidableEq

/-- The body of the `for i, record in enumerate(records)` loop of
`calculate_all_high_bpm_time` (apple/main.py:140-179,
fitbit/main.py:125-147), walking the sorted list: the head is
`records[i]`, the head of the rest is `records[i+1]` when `i` is not
last.  A qualifying reading adds its attributed seconds to the daily
dict (divided by 60), the running seconds total and the count;
a non-qualifying reading changes nothing. -/
def attrLoop (capOpt : Option ℚ) (fallback : ℚ) (min_bpm : Int) :
    List Sample → AttrResult → AttrResult
  | [], acc => acc
  | s :: rest, acc =>
      attrLoop capOpt fallback min_bpm rest <|
        if qualifies min_bpm s then
          let dur := durationSeconds capOpt fallback s rest.head?
          { daily := upsert (get_date_key s.timestamp) (dur / 60) acc.daily
            total_high_seconds := acc.total_high_seconds + dur
            high_bpm_count := acc.high_bpm_count + 1 }
        else acc

/-- The comparator of `records.sort(key=lambda x: x["timestamp"])`:
ascending timestamp; Python's sort and `List.mergeSort` are both
stable, so ties keep input order. -/
def sortLe (a b : Sample) : Bool := decide (a.timestamp ≤ b.timestamp)

/-- Embeds `calculate_all_high_bpm_time` generically over the two
adapters' policy constants (`capOpt`, `fallback`): empty input returns
the empty dict at once (apple/main.py:126-127, fitbit/main.py:113-114);
otherwise the records are sorted by timestamp and the attribution loop
runs from the empty state. -/
def calculate_core (capOpt : Option ℚ) (fallback : ℚ)
    (records : List Sample) (min_bpm : Int) : AttrResult :=
  if records.isEmpty then ⟨[], 0, 0⟩
  else attrLoop capOpt fallback min_bpm (records.mergeSort sortLe) ⟨[], 0, 0⟩

namespace apple

/-- Embeds `calculate_all_high_bpm_time` of `src/apple/main.py`
(lines 114-197): gap capped at 10 seconds, fallback 5 seconds for the
final reading. -/
def calculate_all_high_bpm_time (records : List Sample) (min_bpm : Int) : AttrResult :=
  calculate_core (some 10) 5 records min_bpm

/-- One `<Record>` element of the Apple Health export as seen by the
parsing loop (apple/main.py:54-92), with its attributes already
decoded: `none` stands for a missing attribute or one whose
`parse_datetime` / `float` conversion raises (both are skipped by the
same `continue`). -/
structure AppleElem where
  tag : String
  typeAttr : Option String
  startDateAttr : Option Int
  endDateAttr : Option Int
  valueAttr : Option ℚ
deriving DecidableEq

/-- The heart-rate type discriminator checked at apple/main.py:57. -/
def heartRateMarker : String := "HKQuantityTypeIdentifierHeartRate"

/-- Embeds the per-element body of the parsing loop
(apple/main.py:55-92): keep only `Record` elements with the heart-rate
type tag, all three attributes present and parsed, and `record_start`
inside the inclusive window `[start_utc, end_utc]`
(apple/main.py:77-79 skips when `record_start < start_utc or
record_start > end_utc`). -/
def processAppleElem (start_utc end_utc : Int) (e : AppleElem) : Option Sample :=
  if e.tag = "Record" ∧ e.typeAttr = some heartRateMarker then
    match e.startDateAttr, e.endDateAttr, e.valueAttr with
    | some record_start, some _, some heart_rate =>
        if record_start < start_utc ∨ record_start > end_utc then none
        else some ⟨record_start, heart_rate⟩
    | _, _, _ => none
  else none

/-- The XML input as the streaming parse sees it: the file may be
missing (`FileNotFoundError`), the document may fail to parse
(`ET.ParseError`, possibly after a prefix of good elements), or it
parses fully into a list of elements. -/
inductive XMLSource where
  | missing : XMLSource
  | malformed : List AppleElem → XMLSource
  | ok : List AppleElem → XMLSource

/-- Embeds `parse_heart_rate_data` (apple/main.py:27-111): a missing
file or an XML parse error calls `sys.exit(1)` (modelled as
`.error 1`, the exit status), discarding any records collected before
the failure; otherwise the in-window heart-rate records are collected
and handed to `calculate_all_high_bpm_time`, whose daily dict is
returned. -/
def parse_heart_rate_data (src : XMLSource) (start_utc end_utc : Int)
    (min_bpm : Int) : Except Nat (List (Int × ℚ)) :=
  match src with
  | .missing => .error 1
  | .malformed _ => .error 1
  | .ok elems =>
      let records := elems.filterMap (processAppleElem start_utc end_utc)
      .ok (calculate_all_high_bpm_time records min_bpm).daily

end apple

namespace fitbit

/-- Embeds `calculate_all_high_bpm_time` of `src/fitbit/main.py`
(lines 101-155): raw gap, no cap, fallback 3 seconds for the final
reading. -/
def calculate_all_high_bpm_time (records : List Sample) (min_bpm : Int) : AttrResult :=
  calculate_core none 3 records min_bpm

/-- One entry of a Fitbit heart-rate JSON file as seen by the loop at
fitbit/main.py:62-89, fields already decoded: `dateTime` is `none`
when the key is absent or `parse_fitbit_datetime` raises, `bpm` is
`none` when `entry["value"]["bpm"]` raises or `float` fails (all
skipped by the same `except ... continue`); `confidence` is `none`
when the `confidence` key is absent, which `entry["value"].get(
"confidence", 0)` replaces by `0` rather than skipping. -/
structure FitbitEntry where
  dateTime : Option Int
  bpm : Option ℚ
  confidence : Option Int
deriving DecidableEq

/-- Embeds the per-entry body of the file loop (fitbit/main.py:62-89):
parse the timestamp, drop entries outside the inclusive window
`[start_utc, end_utc]` (fitbit/main.py:67-69 skips when
`timestamp < start_utc or timestamp > end_utc`), read the BPM, default
a missing confidence to 0, and keep the reading only when
`confidence >= 1`.  The produced record's fields beyond the common
sample shape (`confidence`, `date_key`) are never read downstream and
are not modelled. -/
def processFitbitEntry (start_utc end_utc : Int) (ent : FitbitEntry) : Option Sample :=
  match ent.dateTime with
  | none => none
  | some timestamp =>
      if timestamp < start_utc ∨ timestamp > end_utc then none
      else
        match ent.bpm with
        | none => none
        | some bpm =>
            let confidence := ent.confidence.getD 0
            if confidence ≥ 1 then some ⟨timestamp, bpm⟩ else none

/-- One discovered `heart_rate-*.json` file: `none` stands for a file
whose read fails (`json.JSONDecodeError` / `FileNotFoundError`), which
fitbit/main.py:93-95 reports and skips with `continue`; `some entries`
is a file that parses into a list of entries. -/
abbrev FitbitFile : Type := Option (List FitbitEntry)

/-- Embeds `load_fitbit_files` (fitbit/main.py:30-98): iterate over the
discovered files in order (an empty directory just yields the empty
record list, fitbit/main.py:48-50), skipping unreadable files and
accumulating the in-window, confident readings of the rest. -/
def load_fitbit_files (files : List FitbitFile) (start_utc end_utc : Int) :
    List Sample :=
  files.foldl
    (fun records file =>
      match file with
      | none => records
      | some entries =>
          records ++ entries.filterMap (processFitbitEntry start_utc end_utc))
    []

/-- Embeds the tail of `main` (fitbit/main.py:254-263): after loading,
an empty record list prints a message and exits with status 0
(fitbit/main.py:256-258); otherwise attribution runs, the summary is
printed and the script falls off the end of `main`, also exiting 0.
The result is the pair (exit status, daily dict). -/
def main_result (files : List FitbitFile) (start_utc end_utc : Int)
    (min_bpm : Int) : Nat × List (Int × ℚ) :=
  let records := load_fitbit_files files start_utc end_utc
  if records.isEmpty then (0, [])
  else (0, (calculate_all_high_bpm_time records min_bpm).daily)

end fitbit

/-- Specification-side expression (spec §8): the capped gap between two
consecutive samples, `min(gap, cap)` under the capped policy and the
raw gap otherwise. -/
def cappedGap (capOpt : Option ℚ) (a b : Sample) : ℚ :=
  let gap : ℚ := ((b.timestamp - a.timestamp : Int) : ℚ)
  match capOpt with
  | some c => if gap ≤ c then gap else c
  | none => gap

/-- Specification-side expression (spec §8): the sum over all non-last
samples of the (policy-capped) duration to the next sample. -/
def cappedGapSum (capOpt : Option ℚ) : List Sample → ℚ
  | [] => 0
  | [_] => 0
  | a :: b :: rest => cappedGap capOpt a b + cappedGapSum capOpt (b :: rest)

/-- The seconds the attribution loop accumulates over a series: each
qualifying sample contributes its attributed duration, each
non-qualifying sample contributes nothing. -/
def seriesSeconds (capOpt : Option ℚ) (fallback : ℚ) (min_bpm : Int) :
    List Sample → ℚ
  | [] => 0
  | s :: rest =>
      (if qualifies min_bpm s then durationSeconds capOpt fallback s rest.head? else 0)
        + seriesSeconds capOpt fallback min_bpm rest

/-! ### Helper lemmas -/

theorem durationSeconds_some (capOpt : Option ℚ) (fallback : ℚ) (a b : Sample) :
    durationSeconds capOpt fallback a (some b) = cappedGap capOpt a b := rfl

theorem sortLe_of_le {a b : Sample} (h : a.timestamp ≤ b.timestamp) :
    sortLe a b = true := decide_eq_true h

theorem le_of_sortLe {a b : Sample} (h : sortLe a b = true) :
    a.timestamp ≤ b.timestamp := of_decide_eq_true h

theorem sortLe_total (a b : Sample) : sortLe a b || sortLe b a := by
  rcases Int.le_total a.timestamp b.timestamp with h | h <;>
    simp [sortLe, h]

theorem sortLe_trans (a b c : Sample) (hab : sortLe a b) (hbc : sortLe b c) :
    sortLe a c = true :=
  sortLe_of_le (le_trans (le_of_sortLe hab) (le_of_sortLe hbc))

/-- When the input is already sorted by timestamp, `calculate_core`
reduces to the attribution loop on the input itself. -/
theorem calculate_core_of_sorted (capOpt : Option ℚ) (fallback : ℚ)
    (records : List Sample) (min_bpm : Int)
    (h : records.Pairwise fun a b => a.timestamp ≤ b.timestamp) :
    calculate_core capOpt fallback records min_bpm =
      if records.isEmpty then ⟨[], 0, 0⟩
      else attrLoop capOpt fallback min_bpm records ⟨[], 0, 0⟩ := by
  have h' : records.Pairwise fun a b => sortLe a b = true :=
    h.imp fun hab => sortLe_of_le hab
  unfold calculate_core
  rw [List.mergeSort_of_sorted h']

/-- The seconds total accumulated by the attribution loop. -/
theorem total_attrLoop (capOpt : Option ℚ) (fallback : ℚ) (min_bpm : Int) :
    ∀ (l : List Sample) (acc : AttrResult),
      (attrLoop capOpt fallback min_bpm l acc).total_high_seconds =
        acc.total_high_seconds + seriesSeconds capOpt fallback min_bpm l
  | [], acc => by simp [attrLoop, seriesSeconds]
  | s :: rest, acc => by
      rw [attrLoop, seriesSeconds]
      by_cases hq : qualifies min_bpm s
      · rw [if_pos hq, if_pos hq, total_attrLoop capOpt fallback min_bpm rest]
        simp only []
        ring
      · rw [if_neg hq, if_neg hq, total_attrLoop capOpt fallback min_bpm rest]
        ring

/-- With every sample qualifying, the seconds over a non-empty series
are the capped gaps plus one trailing fallback. -/
theorem seriesSeconds_all_qualifying (capOpt : Option ℚ) (fallback : ℚ)
    (min_bpm : Int) :
    ∀ l : List Sample, l ≠ [] → (∀ s ∈ l, qualifies min_bpm s = true) →
      seriesSeconds capOpt fallback min_bpm l = cappedGapSum capOpt l + fallback
  | [], hne, _ => absurd rfl hne
  | [s], _, hq => by
      simp [seriesSeconds, hq s (by simp), durationSeconds, cappedGapSum]
  | a :: b :: rest, _, hq => by
      rw [seriesSeconds, cappedGapSum,
        seriesSeconds_all_qualifying capOpt fallback min_bpm (b :: rest)
          (by simp) (fun s hs => hq s (List.mem_cons_of_mem a hs))]
      rw [if_pos (hq a (by simp)), List.head?_cons, durationSeconds_some]
      ring

/-- Membership in the keys of a Python-dict upsert. -/
theorem mem_map_fst_upsert (k d : Int) (v : ℚ) :
    ∀ M : List (Int × ℚ),
      d ∈ (upsert k v M).map Prod.fst ↔ d = k ∨ d ∈ M.map Prod.fst
  | [] => by simp [upsert]
  | (k', v') :: rest => by
      by_cases h : k' = k
      · subst h
        simp [upsert]
      · simp only [upsert, if_neg h, List.map_cons, List.mem_cons,
          mem_map_fst_upsert k d v rest]
        tauto

/-- Membership in the keys of the daily map built by the attribution
loop: a date is present exactly when it was present in the accumulator
or some qualifying sample of the remaining series falls on it. -/
theorem mem_keys_attrLoop (capOpt : Option ℚ) (fallback : ℚ)
    (min_bpm : Int) (d : Int) :
    ∀ (l : List Sample) (acc : AttrResult),
      d ∈ (attrLoop capOpt fallback min_bpm l acc).daily.map Prod.fst ↔
        d ∈ acc.daily.map Prod.fst ∨
          ∃ s ∈ l, qualifies min_bpm s = true ∧ get_date_key s.timestamp = d
  | [], acc => by simp [attrLoop]
  | s :: rest, acc => by
      rw [attrLoop]
      by_cases hq : qualifies min_bpm s
      · rw [if_pos hq, mem_keys_attrLoop capOpt fallback min_bpm d rest]
        simp only [mem_map_fst_upsert, List.mem_cons]
        constructor
        · rintro ((rfl | h) | ⟨x, hx, hxq, hxd⟩)
          · exact Or.inr ⟨s, Or.inl rfl, hq, rfl⟩
          · exact Or.inl h
          · exact Or.inr ⟨x, Or.inr hx, hxq, hxd⟩
        · rintro (h | ⟨x, rfl | hx, hxq, hxd⟩)
          · exact Or.inl (Or.inr h)
          · exact Or.inl (Or.inl hxd.symm)
          · exact Or.inr ⟨x, hx, hxq, hxd⟩
      · rw [if_neg hq, mem_keys_attrLoop capOpt fallback min_bpm d rest]
        simp only [List.mem_cons]
        constructor
        · rintro (h | ⟨x, hx, hxq, hxd⟩)
          · exact Or.inl h
          · exact Or.inr ⟨x, Or.inr hx, hxq, hxd⟩
        · rintro (h | ⟨x, rfl | hx, hxq, hxd⟩)
          · exact Or.inl h
          · exact absurd hxq hq
          · exact Or.inr ⟨x, hx, hxq, hxd⟩

/-- Date keys of the full engine output: present exactly for the dates
of qualifying input samples. -/
theorem mem_keys_calculate_core (capOpt : Option ℚ) (fallback : ℚ)
    (records : List Sample) (min_bpm : Int) (d : Int) :
    d ∈ (calculate_core capOpt fallback records min_bpm).daily.map Prod.fst ↔
      ∃ s ∈ records, qualifies min_bpm s = true ∧ get_date_key s.timestamp = d := by
  unfold calculate_core
  by_cases h : records.isEmpty
  · rw [if_pos h]
    rw [List.isEmpty_iff] at h
    subst h
    simp
  · rw [if_neg h, mem_keys_attrLoop]
    simp only [List.map_nil, List.not_mem_nil, false_or]
    constructor
    · rintro ⟨x, hx, hxq, hxd⟩
      exact ⟨x, List.mem_mergeSort.mp hx, hxq, hxd⟩
    · rintro ⟨x, hx, hxq, hxd⟩
      exact ⟨x, List.mem_mergeSort.mpr hx, hxq, hxd⟩

/-- After sorting, a series with pairwise-distinct timestamps is
strictly increasing. -/
theorem sorted_lt_mergeSort (r : List Sample)
    (hnd : (r.map Sample.timestamp).Nodup) :
    (r.mergeSort sortLe).Pairwise fun a b => a.timestamp < b.timestamp := by
  have hle : (r.mergeSort sortLe).Pairwise fun a b => sortLe a b = true :=
    List.sorted_mergeSort sortLe_trans sortLe_total r
  have hnd' : ((r.mergeSort sortLe).map Sample.timestamp).Nodup :=
    ((List.mergeSort_perm r sortLe).map Sample.timestamp).nodup_iff.mpr hnd
  have hne : (r.mergeSort sortLe).Pairwise fun a b => a.timestamp ≠ b.timestamp :=
    List.pairwise_map.mp hnd'
  exact (hle.and hne).imp fun h => lt_of_le_of_ne (le_of_sortLe h.1) h.2

/-! ### Claims -/

/-- C3, counterexample: two distinct samples sharing a timestamp are a
multiset on which input order changes the returned per-day minutes
map.  In order `[(t=0, 150 BPM), (t=0, 100 BPM)]` the qualifying
sample is first, its gap to the next reading is 0 seconds, and the
map is `[(0, 0)]` minutes; in the reversed order the qualifying sample
is last, receives the 5-second fallback, and the map is
`[(0, 5/60)]`. -/
theorem c3_counterexample :
    List.Perm [(⟨0, 150⟩ : Sample), ⟨0, 100⟩] [⟨0, 100⟩, ⟨0, 150⟩] ∧
      (apple.calculate_all_high_bpm_time [⟨0, 150⟩, ⟨0, 100⟩] 140).daily ≠
        (apple.calculate_all_high_bpm_time [⟨0, 100⟩, ⟨0, 150⟩] 140).daily := by
  constructor
  · exact List.Perm.swap _ _ _
  · show (calculate_core (some 10) 5 _ 140).daily ≠ (calculate_core (some 10) 5 _ 140).daily
    rw [calculate_core_of_sorted _ _ _ _ (by norm_num),
      calculate_core_of_sorted _ _ _ _ (by norm_num)]
    norm_num [attrLoop, qualifies, durationSeconds, upsert, get_date_key]
    simp only [Prod.ext_iff]
    norm_num

/-- C3 (amended): feeding the attribution engine the same multiset of
samples in any input order yields the same result, provided all
timestamps are pairwise distinct; with duplicated timestamps the
result can depend on the input order (see the counterexample). -/
theorem c3_order_independence (capOpt : Option ℚ) (fallback : ℚ) (min_bpm : Int)
    (r1 r2 : List Sample) (hperm : r1.Perm r2)
    (hnd : (r1.map Sample.timestamp).Nodup) :
    calculate_core capOpt fallback r1 min_bpm =
      calculate_core capOpt fallback r2 min_bpm := by
  have heq : r1.mergeSort sortLe = r2.mergeSort sortLe := by
    haveI : IsAntisymm Sample fun a b => a.timestamp < b.timestamp :=
      ⟨fun a b h1 h2 => absurd h2 (not_lt.2 h1.le)⟩
    exact List.eq_of_perm_of_sorted
      (((List.mergeSort_perm r1 sortLe).trans hperm).trans
        (List.mergeSort_perm r2 sortLe).symm)
      (sorted_lt_mergeSort r1 hnd)
      (sorted_lt_mergeSort r2 ((hperm.map Sample.timestamp).nodup_iff.mp hnd))
  have hie : r1.isEmpty = r2.isEmpty := by
    rcases r1 with _ | ⟨a, r⟩
    · rw [hperm.symm.eq_nil]
    · have h2 : r2 ≠ [] := fun h => by
        rw [h] at hperm
        exact absurd hperm.eq_nil (by simp)
      rcases r2 with _ | ⟨b, t⟩
      · exact absurd rfl h2
      · rfl
  unfold calculate_core
  rw [heq, hie]

/-- C3, witness of the amended claim at a concrete input: swapping two
samples with distinct timestamps leaves the result unchanged. -/
theorem c3_witness :
    List.Perm [(⟨5, 150⟩ : Sample), ⟨0, 100⟩] [⟨0, 100⟩, ⟨5, 150⟩] ∧
      ([(⟨5, 150⟩ : Sample), ⟨0, 100⟩].map Sample.timestamp).Nodup ∧
      calculate_core (some 10) 5 [⟨5, 150⟩, ⟨0, 100⟩] 140 =
        calculate_core (some 10) 5 [⟨0, 100⟩, ⟨5, 150⟩] 140 :=
  ⟨List.Perm.swap _ _ _, by simp,
    c3_order_independence (some 10) 5 140 _ _ (List.Perm.swap _ _ _) (by simp)⟩

/-- C4: on a non-empty sorted series in which every sample qualifies
(threshold not exceeding any heart rate), the total attributed minutes
are the sum of the policy-capped inter-sample gaps plus one trailing
fallback (10-second cap and 5-second fallback for the streaming
adapter, raw gap and 3-second fallback for the discrete-file adapter),
divided by 60. -/
theorem c4_low_threshold_total (records : List Sample) (min_bpm : Int)
    (hne : records ≠ [])
    (hsorted : records.Pairwise fun a b => a.timestamp ≤ b.timestamp)
    (hq : ∀ s ∈ records, qualifies min_bpm s = true) :
    (apple.calculate_all_high_bpm_time records min_bpm).total_high_seconds / 60 =
        (cappedGapSum (some 10) records + 5) / 60 ∧
      (fitbit.calculate_all_high_bpm_time records min_bpm).total_high_seconds / 60 =
        (cappedGapSum none records + 3) / 60 := by
  have hie : records.isEmpty = false := by
    rcases records with _ | ⟨a, r⟩
    · exact absurd rfl hne
    · rfl
  constructor
  · show (calculate_core (some 10) 5 records min_bpm).total_high_seconds / 60 = _
    rw [calculate_core_of_sorted _ _ _ _ hsorted, hie]
    rw [if_neg (by simp), total_attrLoop,
      seriesSeconds_all_qualifying (some 10) 5 min_bpm records hne hq]
    norm_num
  · show (calculate_core none 3 records min_bpm).total_high_seconds / 60 = _
    rw [calculate_core_of_sorted _ _ _ _ hsorted, hie]
    rw [if_neg (by simp), total_attrLoop,
      seriesSeconds_all_qualifying none 3 min_bpm records hne hq]
    norm_num

/-- C4, witness: the sorted all-qualifying series
`[(t=0, 150), (t=2, 150)]` with threshold 140. -/
theorem c4_witness :
    ([(⟨0, 150⟩ : Sample), ⟨2, 150⟩] ≠ []) ∧
      List.Pairwise (fun a b : Sample => a.timestamp ≤ b.timestamp)
        [⟨0, 150⟩, ⟨2, 150⟩] ∧
      (∀ s ∈ [(⟨0, 150⟩ : Sample), ⟨2, 150⟩], qualifies 140 s = true) ∧
      ((apple.calculate_all_high_bpm_time [⟨0, 150⟩, ⟨2, 150⟩] 140).total_high_seconds / 60 =
          (cappedGapSum (some 10) [⟨0, 150⟩, ⟨2, 150⟩] + 5) / 60 ∧
        (fitbit.calculate_all_high_bpm_time [⟨0, 150⟩, ⟨2, 150⟩] 140).total_high_seconds / 60 =
          (cappedGapSum none [⟨0, 150⟩, ⟨2, 150⟩] + 3) / 60) :=
  ⟨by simp, by norm_num, by norm_num [qualifies],
    c4_low_threshold_total [⟨0, 150⟩, ⟨2, 150⟩] 140 (by simp) (by norm_num)
      (by norm_num [qualifies])⟩

/-- C5: on the same-day series `[(t0, 150), (t0+2s, 150), (t0+90s, 150)]`
with threshold 140, the capped streaming policy attributes
2 + 10 + 5 = 17 seconds (17/60 minutes) under the single date key, and
the uncapped discrete-file policy attributes 2 + 88 + 3 = 93 seconds
(93/60 = 1.55 minutes). -/
theorem c5_scenario (t0 : Int)
    (h1 : get_date_key (t0 + 2) = get_date_key t0)
    (h2 : get_date_key (t0 + 90) = get_date_key t0) :
    apple.calculate_all_high_bpm_time [⟨t0, 150⟩, ⟨t0 + 2, 150⟩, ⟨t0 + 90, 150⟩] 140 =
        ⟨[(get_date_key t0, 17 / 60)], 17, 3⟩ ∧
      fitbit.calculate_all_high_bpm_time [⟨t0, 150⟩, ⟨t0 + 2, 150⟩, ⟨t0 + 90, 150⟩] 140 =
        ⟨[(get_date_key t0, 93 / 60)], 93, 3⟩ := by
  have hpair : List.Pairwise (fun a b : Sample => a.timestamp ≤ b.timestamp)
      [⟨t0, 150⟩, ⟨t0 + 2, 150⟩, ⟨t0 + 90, 150⟩] := by
    refine List.Pairwise.cons ?_ (List.Pairwise.cons ?_ (List.pairwise_singleton _ _))
    · intro a' ha'
      simp only [List.mem_cons, List.not_mem_nil, or_false] at ha'
      rcases ha' with rfl | rfl
      · show t0 ≤ t0 + 2
        omega
      · show t0 ≤ t0 + 90
        omega
    · intro a' ha'
      simp only [List.mem_cons, List.not_mem_nil, or_false] at ha'
      subst ha'
      show t0 + 2 ≤ t0 + 90
      omega
  have e1 : (t0 + 2 : Int) - t0 = 2 := by omega
  have e2 : (t0 + 90 : Int) - (t0 + 2) = 88 := by omega
  constructor
  · show calculate_core (some 10) 5 _ 140 = _
    rw [calculate_core_of_sorted _ _ _ _ hpair]
    simp only [attrLoop, qualifies, durationSeconds, upsert, List.head?_cons,
      List.isEmpty_cons, Bool.false_eq_true, if_false, e1, e2, h1, h2]
    norm_num
  · show calculate_core none 3 _ 140 = _
    rw [calculate_core_of_sorted _ _ _ _ hpair]
    simp only [attrLoop, qualifies, durationSeconds, upsert, List.head?_cons,
      List.isEmpty_cons, Bool.false_eq_true, if_false, e1, e2, h1, h2]
    norm_num

/-- C5, witness at `t0 = 0` (all three timestamps on epoch day 0). -/
theorem c5_witness :
    get_date_key (0 + 2) = get_date_key 0 ∧
      get_date_key (0 + 90) = get_date_key 0 ∧
      apple.calculate_all_high_bpm_time [⟨0, 150⟩, ⟨0 + 2, 150⟩, ⟨0 + 90, 150⟩] 140 =
          ⟨[(get_date_key 0, 17 / 60)], 17, 3⟩ ∧
      fitbit.calculate_all_high_bpm_time [⟨0, 150⟩, ⟨0 + 2, 150⟩, ⟨0 + 90, 150⟩] 140 =
          ⟨[(get_date_key 0, 93 / 60)], 93, 3⟩ :=
  ⟨by decide, by decide,
    (c5_scenario 0 (by decide) (by decide)).1, (c5_scenario 0 (by decide) (by decide)).2⟩

/-- C6: a sample whose heart rate equals `min_bpm` exactly is counted
as qualifying and contributes its attributed duration to the daily
map, the seconds total and the qualifying count, while a sample one
unit below `min_bpm` leaves the engine state unchanged. -/
theorem c6_threshold_boundary (capOpt : Option ℚ) (fallback : ℚ) (min_bpm : Int)
    (s : Sample) (l : List Sample) (acc : AttrResult) :
    (s.heart_rate = (min_bpm : ℚ) →
        attrLoop capOpt fallback min_bpm (s :: l) acc =
          attrLoop capOpt fallback min_bpm l
            ⟨upsert (get_date_key s.timestamp)
                (durationSeconds capOpt fallback s l.head? / 60) acc.daily,
              acc.total_high_seconds + durationSeconds capOpt fallback s l.head?,
              acc.high_bpm_count + 1⟩) ∧
      (s.heart_rate = (min_bpm : ℚ) - 1 →
        attrLoop capOpt fallback min_bpm (s :: l) acc =
          attrLoop capOpt fallback min_bpm l acc) := by
  constructor
  · intro h
    rw [attrLoop, if_pos (show qualifies min_bpm s = true by simp [qualifies, h])]
  · intro h
    have hlt : ¬ ((min_bpm : ℚ) ≤ s.heart_rate) := by
      rw [h]
      intro hc
      linarith
    rw [attrLoop, if_neg (by simpa [qualifies] using hlt)]

/-- C6, witness: at threshold 140 a 140-BPM sample contributes its
duration and a 139-BPM sample contributes nothing. -/
theorem c6_witness :
    (attrLoop (some 10) 5 140 [⟨0, 140⟩] ⟨[], 0, 0⟩ =
        attrLoop (some 10) 5 140 []
          ⟨upsert (get_date_key 0) (durationSeconds (some 10) 5 ⟨0, 140⟩ none / 60) [],
            0 + durationSeconds (some 10) 5 ⟨0, 140⟩ none, 0 + 1⟩) ∧
      attrLoop (some 10) 5 140 [⟨0, 139⟩] ⟨[], 0, 0⟩ =
        attrLoop (some 10) 5 140 [] ⟨[], 0, 0⟩ :=
  ⟨(c6_threshold_boundary (some 10) 5 140 ⟨0, 140⟩ [] ⟨[], 0, 0⟩).1 (by norm_num),
    (c6_threshold_boundary (some 10) 5 140 ⟨0, 139⟩ [] ⟨[], 0, 0⟩).2 (by norm_num)⟩

/-- C7: for either adapter's engine, a date key is present in the
returned per-day map exactly when some qualifying sample
(`heart_rate >= min_bpm`) falls on that date; in particular the empty
series and an all-below-threshold series give the empty map. -/
theorem c7_keys_iff_qualifying (records : List Sample) (min_bpm : Int) (d : Int) :
    (d ∈ (apple.calculate_all_high_bpm_time records min_bpm).daily.map Prod.fst ↔
        ∃ s ∈ records, qualifies min_bpm s = true ∧ get_date_key s.timestamp = d) ∧
      (d ∈ (fitbit.calculate_all_high_bpm_time records min_bpm).daily.map Prod.fst ↔
        ∃ s ∈ records, qualifies min_bpm s = true ∧ get_date_key s.timestamp = d) :=
  ⟨mem_keys_calculate_core (some 10) 5 records min_bpm d,
    mem_keys_calculate_core none 3 records min_bpm d⟩

/-- C1, counterexample: a discrete-file run over a directory with no
matching files terminates with exit status 0, not a non-zero status as
the claim asserts. -/
theorem c1_counterexample : ¬ (fitbit.main_result [] 0 100 140).1 ≠ 0 :=
  fun h => h rfl

/-- C1 (amended): a missing streaming-adapter input file is fatal and
exits with status 1; a discrete-file directory with no matching files
is reported but not fatal — the run produces the empty result and
terminates with exit status 0. -/
theorem c1_missing_source_status (start_utc end_utc min_bpm : Int) :
    apple.parse_heart_rate_data apple.XMLSource.missing start_utc end_utc min_bpm =
        .error 1 ∧
      fitbit.main_result [] start_utc end_utc min_bpm = (0, []) :=
  ⟨rfl, rfl⟩

/-- C2, counterexample: a run whose source directory contains a file
that cannot be parsed as JSON, next to one good file, does not abort:
it terminates with exit status 0 and produces (partial) output from
the remaining file. -/
theorem c2_counterexample :
    (fitbit.main_result [none, some [⟨some 10, some 150, some 1⟩]] 0 100 140).1 = 0 ∧
      (fitbit.main_result [none, some [⟨some 10, some 150, some 1⟩]] 0 100 140).2 ≠ [] := by
  constructor
  · rfl
  · have hrun : fitbit.main_result [none, some [⟨some 10, some 150, some 1⟩]] 0 100 140 =
        (0, (fitbit.calculate_all_high_bpm_time [⟨10, 150⟩] 140).daily) := rfl
    rw [hrun]
    show (calculate_core none 3 [⟨10, 150⟩] 140).daily ≠ []
    rw [calculate_core_of_sorted _ _ _ _ (by simp)]
    norm_num [attrLoop, qualifies, durationSeconds, upsert]

/-- C2 (amended): a streaming-adapter document that fails to parse as
XML aborts the run with exit status 1, regardless of any records
collected before the failure; a discrete file that fails to parse as
JSON is skipped and loading continues exactly as if the file were
absent. -/
theorem c2_malformed_structure :
    (∀ (pre : List apple.AppleElem) (start_utc end_utc min_bpm : Int),
        apple.parse_heart_rate_data (apple.XMLSource.malformed pre)
            start_utc end_utc min_bpm = .error 1) ∧
      ∀ (fs1 fs2 : List fitbit.FitbitFile) (start_utc end_utc : Int),
        fitbit.load_fitbit_files (fs1 ++ (none : fitbit.FitbitFile) :: fs2)
            start_utc end_utc =
          fitbit.load_fitbit_files (fs1 ++ fs2) start_utc end_utc := by
  constructor
  · intro pre start_utc end_utc min_bpm
    rfl
  · intro fs1 fs2 start_utc end_utc
    unfold fitbit.load_fitbit_files
    rw [List.foldl_append, List.foldl_append]
    rfl

/-- C8: the time-window filter of both adapters is inclusive at both
ends: a record at exactly the start or the end bound is accepted, a
record strictly outside `[start, end]` is rejected. -/
theorem c8_window_inclusive (start_utc end_utc t endAttr : Int) (hr : ℚ)
    (hse : start_utc ≤ end_utc) :
    ((t = start_utc ∨ t = end_utc) →
        apple.processAppleElem start_utc end_utc
            ⟨"Record", some apple.heartRateMarker, some t, some endAttr, some hr⟩ =
          some ⟨t, hr⟩ ∧
        fitbit.processFitbitEntry start_utc end_utc ⟨some t, some hr, some 1⟩ =
          some ⟨t, hr⟩) ∧
      ((t < start_utc ∨ end_utc < t) →
        apple.processAppleElem start_utc end_utc
            ⟨"Record", some apple.heartRateMarker, some t, some endAttr, some hr⟩ =
          none ∧
        fitbit.processFitbitEntry start_utc end_utc ⟨some t, some hr, some 1⟩ =
          none) := by
  constructor
  · intro ht
    have hin : ¬ (t < start_utc ∨ t > end_utc) := by
      rcases ht with rfl | rfl <;> omega
    constructor
    · unfold apple.processAppleElem
      rw [if_pos ⟨rfl, rfl⟩]
      show (if t < start_utc ∨ t > end_utc then none else some (⟨t, hr⟩ : Sample)) =
        some ⟨t, hr⟩
      rw [if_neg hin]
    · unfold fitbit.processFitbitEntry
      show (if t < start_utc ∨ t > end_utc then none
            else if ((some (1 : Int)).getD 0) ≥ 1 then some (⟨t, hr⟩ : Sample)
            else none) = some ⟨t, hr⟩
      rw [if_neg hin, if_pos (by decide)]
  · intro ht
    have hout : t < start_utc ∨ t > end_utc := ht
    constructor
    · unfold apple.processAppleElem
      rw [if_pos ⟨rfl, rfl⟩]
      show (if t < start_utc ∨ t > end_utc then none else some (⟨t, hr⟩ : Sample)) =
        none
      rw [if_pos hout]
    · unfold fitbit.processFitbitEntry
      show (if t < start_utc ∨ t > end_utc then none
            else if ((some (1 : Int)).getD 0) ≥ 1 then some (⟨t, hr⟩ : Sample)
            else none) = none
      rw [if_pos hout]

/-- C8, witness: with window `[0, 100]`, a record at 0 and at 100 is
accepted by both adapters, one at 101 is rejected by both. -/
theorem c8_witness :
    ((0 : Int) ≤ 100) ∧
      (apple.processAppleElem 0 100
          ⟨"Record", some apple.heartRateMarker, some 0, some 50, some 150⟩ =
            some ⟨0, 150⟩ ∧
        fitbit.processFitbitEntry 0 100 ⟨some 0, some 150, some 1⟩ = some ⟨0, 150⟩) ∧
      (apple.processAppleElem 0 100
          ⟨"Record", some apple.heartRateMarker, some 101, some 50, some 150⟩ =
            none ∧
        fitbit.processFitbitEntry 0 100 ⟨some 101, some 150, some 1⟩ = none) :=
  ⟨by omega,
    (c8_window_inclusive 0 100 0 50 150 (by omega)).1 (Or.inl rfl),
    (c8_window_inclusive 0 100 101 50 150 (by omega)).2 (Or.inr (by omega))⟩

/-- C10: a discrete-file entry whose value object has no confidence
field is treated exactly like one with confidence 0, and is excluded
from the produced sample series even when it is in-window and its BPM
qualifies. -/
theorem c10_missing_confidence (start_utc end_utc : Int)
    (ent : fitbit.FitbitEntry) (h : ent.confidence = none) :
    fitbit.processFitbitEntry start_utc end_utc ent =
        fitbit.processFitbitEntry start_utc end_utc
          ⟨ent.dateTime, ent.bpm, some 0⟩ ∧
      fitbit.processFitbitEntry start_utc end_utc ent = none := by
  obtain ⟨dt, bpm, conf⟩ := ent
  cases h
  constructor
  · rfl
  · cases dt with
    | none => rfl
    | some t =>
        cases bpm with
        | none =>
            show (if t < start_utc ∨ t > end_utc then none else (none : Option Sample)) =
              none
            exact ite_self _
        | some b =>
            show (if t < start_utc ∨ t > end_utc then none
                  else if ((none : Option Int).getD 0) ≥ 1 then some (⟨t, b⟩ : Sample)
                  else none) = none
            rw [if_neg (show ¬ ((none : Option Int).getD 0 ≥ 1) by decide)]
            exact ite_self _

/-- C10, witness: the in-window, qualifying entry
`(t=10, 150 BPM, no confidence field)` is treated as confidence 0 and
dropped. -/
theorem c10_witness :
    (fitbit.FitbitEntry.mk (some 10) (some 150) none).confidence = none ∧
      fitbit.processFitbitEntry 0 100 ⟨some 10, some 150, none⟩ =
        fitbit.processFitbitEntry 0 100 ⟨some 10, some 150, some 0⟩ ∧
      fitbit.processFitbitEntry 0 100 ⟨some 10, some 150, none⟩ = none :=
  ⟨rfl, (c10_missing_confidence 0 100 ⟨some 10, some 150, none⟩ rfl).1,
    (c10_missing_confidence 0 100 ⟨some 10, some 150, none⟩ rfl).2⟩

end Rate
